import Mathlib

set_option linter.unusedVariables false

/-!
Verification of `src/pcsd/public/js/dev/tests-cluster-setup.js`.

The file under verification is a manual developer-testing scaffold: a table of
mock responder functions (`testClusterSetup.*`), one per scenario, each with
signature `(url, data, success, fail)`. Every callback invocation in the source
occurs as `return success(...)` or `return fail(...)` in tail position of a
`switch` branch, so a single invocation is modelled by one `Outcome` value:
`Outcome.success b` models the call terminating via the success callback with
body `b`, `Outcome.failure c m` via the failure callback, `Outcome.noResponse`
models falling off the switch and returning `undefined` without calling either
callback, and `Outcome.jsError` models an uncaught JavaScript exception
(neither callback called, no value returned).

The payload `data` is an object whose only field read by any responder is
`setup_data`, a JSON-encoded string. Following the data model of the spec
(payloads are "opaque structured values, sometimes JSON-encoded"), a string
used as `setup_data` is carried by what `JSON.parse` makes of it: either the
serialization of an object with an optional `force_flags` array
(`SetupStr.encObj`), or text that is not valid JSON (`SetupStr.malformed`).

The only mutable cells in the source file are `dev.flags.cluster_overview_run`
and `dev.utils.clusterSetupDialog.wasRun`; they are collected in `DevState`
and used by the one-shot ajax override and the prefill routine. A second,
state-passing translation `runSt` of the scenario table threads `DevState`
through every branch (including the delegation calls) so that statelessness of
the responders is a provable property rather than a modelling assumption.
-/

/-- Modelled from the spec: the canned fixture payloads (`dev.fixture.success`,
`dev.fixture.libErrorUnforcibleLarge`, `dev.fixture.libException`,
`dev.fixture.libError(forcible)`, `mock.clusters_overview`) are owned by an
external fixture collaborator and are "treated as opaque constants by this
component" (spec section 3). `libError` is a function of one boolean; the spec
describes its two outputs as distinct fixtures (the "forcible" versus the
plain error fixture), so the constructors are distinct by construction. -/
inductive Fixture where
  | success
  | libErrorUnforcibleLarge
  | libException
  | libError (forcible : Bool)
  | clustersOverview
deriving DecidableEq

/-- A response body handed to the success callback: either a plain string, the
JSON serialization of an opaque fixture, or the JSON serialization of an
inline node-name to status-string object literal. -/
inductive Body where
  | str (s : String)
  | jsonFixture (f : Fixture)
  | jsonNodeMap (m : List (String × String))
deriving DecidableEq

/-- The observable outcome of one responder invocation (see the header
comment: each callback call in the source is in tail position, so an
invocation produces exactly one of these). -/
inductive Outcome where
  | success (body : Option Body)
  | failure (code : Option Nat) (msg : Option String)
  | noResponse
  | jsError
deriving DecidableEq

/-- A JavaScript string used as the `setup_data` payload field, carried by its
`JSON.parse` image: `encObj ff` is the serialization of an object whose
`force_flags` field is `ff` (absent when `none`); `malformed raw` is a string
that is not valid JSON, on which `JSON.parse` throws. -/
inductive SetupStr where
  | encObj (force_flags : Option (List String))
  | malformed (raw : String)
deriving DecidableEq

/-- The intercepted request payload. The only field any responder reads is
`setup_data`; `none` models a payload object without that field, so that
`data.setup_data` evaluates to `undefined`. -/
structure JsData where
  setup_data : Option SetupStr
deriving DecidableEq

/-- `JSON.parse(data.setup_data).force_flags.length`, as evaluated by the two
force-flag responders: `JSON.parse(undefined)` and `JSON.parse` of invalid
JSON throw a `SyntaxError`; reading `.length` of an absent `force_flags` field
throws a `TypeError`; otherwise the array length is returned. -/
def forceFlagsLength (d : JsData) : Except Unit Nat :=
  match d.setup_data with
  | none => .error ()
  | some (.malformed _) => .error ()
  | some (.encObj none) => .error ()
  | some (.encObj (some l)) => .ok l.length

/-- True exactly when `setup_data` is valid JSON decoding to an object with a
`force_flags` array, i.e. when `forceFlagsLength` does not throw. -/
def goodSetup (d : JsData) : Bool :=
  match d.setup_data with
  | some (.encObj (some _)) => true
  | _ => false

namespace testClusterSetup

/-- `testClusterSetup.successPath`: answers the four dialog endpoints via the
success callback and falls off the switch (returning undefined) on any other
URL. -/
def successPath (url : String) (data : JsData) : Outcome :=
  if url = "/manage/check_auth_against_nodes" then
    .success (some (.jsonNodeMap
      [("dave8", "Online"), ("kryten8", "Online"), ("holly8", "Online")]))
  else if url = "/manage/send-known-hosts-to-node" then
    .success (some (.str "success"))
  else if url = "/manage/cluster-setup" then
    .success (some (.jsonFixture .success))
  else if url = "/manage/remember-cluster" then
    .success none
  else
    .noResponse

/-- `testClusterSetup.checkAuth500`. -/
def checkAuth500 (url : String) (data : JsData) : Outcome :=
  if url = "/manage/check_auth_against_nodes" then
    .failure (some 500) (some "Somethig is wrong")
  else if url = "/manage/send-known-hosts-to-node" then
    .success (some (.str "success"))
  else
    .noResponse

/-- `testClusterSetup.checkAuthFails`: `fail()` with no arguments on the auth
check URL, no other case and no default. -/
def checkAuthFails (url : String) (data : JsData) : Outcome :=
  if url = "/manage/check_auth_against_nodes" then
    .failure none none
  else
    .noResponse

/-- `testClusterSetup.checkAuthNodesNotAuth`. -/
def checkAuthNodesNotAuth (url : String) (data : JsData) : Outcome :=
  if url = "/manage/check_auth_against_nodes" then
    .success (some (.jsonNodeMap
      [("dave8", "Online"), ("kryten8", "Unable to authenticate"),
       ("holly8", "Cant connect")]))
  else
    .noResponse

/-- `testClusterSetup.sendKnownHosts403`. -/
def sendKnownHosts403 (url : String) (data : JsData) : Outcome :=
  if url = "/manage/send-known-hosts-to-node" then
    .failure (some 403) (some "Permission denied.")
  else
    successPath url data

/-- `testClusterSetup.sendKnownHostsFail`. -/
def sendKnownHostsFail (url : String) (data : JsData) : Outcome :=
  if url = "/manage/send-known-hosts-to-node" then
    .success (some (.str "error"))
  else
    successPath url data

/-- `testClusterSetup.sendKnownHostsUnsupported`. -/
def sendKnownHostsUnsupported (url : String) (data : JsData) : Outcome :=
  if url = "/manage/send-known-hosts-to-node" then
    .success (some (.str "not_supported"))
  else
    successPath url data

/-- `testClusterSetup.sendKnownHostsUnknownFail`. -/
def sendKnownHostsUnknownFail (url : String) (data : JsData) : Outcome :=
  if url = "/manage/send-known-hosts-to-node" then
    .success (some (.str "unknown"))
  else
    successPath url data

/-- `testClusterSetup.clusterSetup403`. -/
def clusterSetup403 (url : String) (data : JsData) : Outcome :=
  if url = "/manage/cluster-setup" then
    .failure (some 403) (some "Permission denied.")
  else
    successPath url data

/-- `testClusterSetup.clusterSetup500`. -/
def clusterSetup500 (url : String) (data : JsData) : Outcome :=
  if url = "/manage/cluster-setup" then
    .failure (some 500) (some "Somethig is wrong")
  else
    successPath url data

/-- `testClusterSetup.clusterSetupUnforcible`. -/
def clusterSetupUnforcible (url : String) (data : JsData) : Outcome :=
  if url = "/manage/cluster-setup" then
    .success (some (.jsonFixture .libErrorUnforcibleLarge))
  else
    successPath url data

/-- `testClusterSetup.clusterSetupException`. -/
def clusterSetupException (url : String) (data : JsData) : Outcome :=
  if url = "/manage/cluster-setup" then
    .success (some (.jsonFixture .libException))
  else
    successPath url data

/-- `testClusterSetup.clusterSetupForceFail`: on the cluster-setup URL returns
`success(JSON.stringify(dev.fixture.libError(JSON.parse(data.setup_data).force_flags.length < 1)))`;
the evaluation of the argument throws on a bad payload before `success` is
called. -/
def clusterSetupForceFail (url : String) (data : JsData) : Outcome :=
  if url = "/manage/cluster-setup" then
    match forceFlagsLength data with
    | .error _ => .jsError
    | .ok n => .success (some (.jsonFixture (.libError (decide (n < 1)))))
  else
    successPath url data

/-- `testClusterSetup.clusterSetupForceFailForcible`: on the cluster-setup URL
always returns `success(JSON.stringify(dev.fixture.libError(true)))`. -/
def clusterSetupForceFailForcible (url : String) (data : JsData) : Outcome :=
  if url = "/manage/cluster-setup" then
    .success (some (.jsonFixture (.libError true)))
  else
    successPath url data

/-- `testClusterSetup.clusterSetupForce`: on the cluster-setup URL answers with
`libError(true)` when `force_flags` is empty and otherwise falls through the
case label into the default branch, delegating to `successPath`. -/
def clusterSetupForce (url : String) (data : JsData) : Outcome :=
  if url = "/manage/cluster-setup" then
    match forceFlagsLength data with
    | .error _ => .jsError
    | .ok n =>
      if n < 1 then .success (some (.jsonFixture (.libError true)))
      else successPath url data
  else
    successPath url data

/-- `testClusterSetup.rememberFail`. -/
def rememberFail (url : String) (data : JsData) : Outcome :=
  if url = "/manage/remember-cluster" then
    .failure (some 500) (some "Server error")
  else
    successPath url data

end testClusterSetup

/-- The sixteen scenario functions of the `testClusterSetup` table. -/
inductive Scenario where
  | successPath
  | checkAuth500
  | checkAuthFails
  | checkAuthNodesNotAuth
  | sendKnownHosts403
  | sendKnownHostsFail
  | sendKnownHostsUnsupported
  | sendKnownHostsUnknownFail
  | clusterSetup403
  | clusterSetup500
  | clusterSetupUnforcible
  | clusterSetupException
  | clusterSetupForceFail
  | clusterSetupForceFailForcible
  | clusterSetupForce
  | rememberFail
deriving DecidableEq

/-- Dispatch from a scenario name to its responder function. -/
def run : Scenario → String → JsData → Outcome
  | .successPath => testClusterSetup.successPath
  | .checkAuth500 => testClusterSetup.checkAuth500
  | .checkAuthFails => testClusterSetup.checkAuthFails
  | .checkAuthNodesNotAuth => testClusterSetup.checkAuthNodesNotAuth
  | .sendKnownHosts403 => testClusterSetup.sendKnownHosts403
  | .sendKnownHostsFail => testClusterSetup.sendKnownHostsFail
  | .sendKnownHostsUnsupported => testClusterSetup.sendKnownHostsUnsupported
  | .sendKnownHostsUnknownFail => testClusterSetup.sendKnownHostsUnknownFail
  | .clusterSetup403 => testClusterSetup.clusterSetup403
  | .clusterSetup500 => testClusterSetup.clusterSetup500
  | .clusterSetupUnforcible => testClusterSetup.clusterSetupUnforcible
  | .clusterSetupException => testClusterSetup.clusterSetupException
  | .clusterSetupForceFail => testClusterSetup.clusterSetupForceFail
  | .clusterSetupForceFailForcible => testClusterSetup.clusterSetupForceFailForcible
  | .clusterSetupForce => testClusterSetup.clusterSetupForce
  | .rememberFail => testClusterSetup.rememberFail

/-- The scenarios whose switch has a `default:` branch delegating to
`successPath` (all except the four terminal ones). -/
def delegating : Scenario → Bool
  | .successPath | .checkAuth500 | .checkAuthFails | .checkAuthNodesNotAuth => false
  | _ => true

/-- For a delegating scenario, the single URL matched by its own `case`
label. -/
def caseURL : Scenario → String
  | .sendKnownHosts403 | .sendKnownHostsFail | .sendKnownHostsUnsupported
  | .sendKnownHostsUnknownFail => "/manage/send-known-hosts-to-node"
  | .rememberFail => "/manage/remember-cluster"
  | _ => "/manage/cluster-setup"

/-- The mutable cells of the source file: `dev.flags.cluster_overview_run`
(initially `undefined`, modelled `none`; set to `true` by the one-shot ajax
override) and `dev.utils.clusterSetupDialog.wasRun` (initially `false`; set to
`true` by the prefill routine). -/
structure DevState where
  cluster_overview_run : Option Bool
  wasRun : Bool
deriving DecidableEq

/-- The URL-matching override registered with `dev.patch.ajax_wrapper`: on
`"/clusters_overview"`, when `dev.flags.cluster_overview_run` is still
`undefined`, it sets the flag and returns the `mock.clusters_overview`
fixture; otherwise execution falls through the case label into
`default: return undefined`. The `console.group` and `console.log` calls are
output-only and are not modelled. -/
def ajaxWrapperOverride (st : DevState) (url : String) : Option Fixture × DevState :=
  if url = "/clusters_overview" then
    match st.cluster_overview_run with
    | none => (some .clustersOverview, ⟨some true, st.wasRun⟩)
    | some _ => (none, st)
  else
    (none, st)

/-- The sequence of responses produced by running the override on a list of
intercepted URLs, threading the flag state from call to call. -/
def wrapperTrace (st : DevState) : List String → List (Option Fixture)
  | [] => []
  | u :: us =>
    (ajaxWrapperOverride st u).1 :: wrapperTrace (ajaxWrapperOverride st u).2 us

/-- The dialog-priming side effects of the prefill routine:
`clusterSetup.dialog.create()` followed by the jQuery value assignments. The
effects themselves are external UI operations; only their occurrence is
modelled. -/
inductive UiAction where
  | dialogCreate
  | setClusterName (v : String)
  | setNodeField (name : String) (v : String)
deriving DecidableEq

/-- The actions performed by one full run of the prefill body. -/
def prefillActions : List UiAction :=
  [.dialogCreate, .setClusterName "starbug8", .setNodeField "node-1" "dave8",
   .setNodeField "node-2" "kryten8", .setNodeField "node-3" "holly8"]

/-- `dev.utils.clusterSetupDialog.prefill`: returns early when `wasRun` is
already `true`; otherwise sets `wasRun` and performs the dialog-priming
actions. The returned list records which actions this invocation performed. -/
def prefill (st : DevState) : List UiAction × DevState :=
  if st.wasRun then
    ([], st)
  else
    (prefillActions, ⟨st.cluster_overview_run, true⟩)

/-- State-passing translation of `testClusterSetup.successPath`, used by the
delegating branches of `runSt`. -/
def successPathSt (url : String) (data : JsData) (st : DevState) : Outcome × DevState :=
  if url = "/manage/check_auth_against_nodes" then
    (.success (some (.jsonNodeMap
      [("dave8", "Online"), ("kryten8", "Online"), ("holly8", "Online")])), st)
  else if url = "/manage/send-known-hosts-to-node" then
    (.success (some (.str "success")), st)
  else if url = "/manage/cluster-setup" then
    (.success (some (.jsonFixture .success)), st)
  else if url = "/manage/remember-cluster" then
    (.success none, st)
  else
    (.noResponse, st)

/-- State-passing translation of the whole scenario table: the mutable cells
of `DevState` are threaded through every branch, including the delegation
calls, exactly as a JavaScript interpreter would carry the global heap through
each responder body. None of the responder bodies mentions either cell. -/
def runSt : Scenario → String → JsData → DevState → Outcome × DevState
  | .successPath, url, data, st => successPathSt url data st
  | .checkAuth500, url, data, st =>
    if url = "/manage/check_auth_against_nodes" then
      (.failure (some 500) (some "Somethig is wrong"), st)
    else if url = "/manage/send-known-hosts-to-node" then
      (.success (some (.str "success")), st)
    else
      (.noResponse, st)
  | .checkAuthFails, url, data, st =>
    if url = "/manage/check_auth_against_nodes" then
      (.failure none none, st)
    else
      (.noResponse, st)
  | .checkAuthNodesNotAuth, url, data, st =>
    if url = "/manage/check_auth_against_nodes" then
      (.success (some (.jsonNodeMap
        [("dave8", "Online"), ("kryten8", "Unable to authenticate"),
         ("holly8", "Cant connect")])), st)
    else
      (.noResponse, st)
  | .sendKnownHosts403, url, data, st =>
    if url = "/manage/send-known-hosts-to-node" then
      (.failure (some 403) (some "Permission denied."), st)
    else
      successPathSt url data st
  | .sendKnownHostsFail, url, data, st =>
    if url = "/manage/send-known-hosts-to-node" then
      (.success (some (.str "error")), st)
    else
      successPathSt url data st
  | .sendKnownHostsUnsupported, url, data, st =>
    if url = "/manage/send-known-hosts-to-node" then
      (.success (some (.str "not_supported")), st)
    else
      successPathSt url data st
  | .sendKnownHostsUnknownFail, url, data, st =>
    if url = "/manage/send-known-hosts-to-node" then
      (.success (some (.str "unknown")), st)
    else
      successPathSt url data st
  | .clusterSetup403, url, data, st =>
    if url = "/manage/cluster-setup" then
      (.failure (some 403) (some "Permission denied."), st)
    else
      successPathSt url data st
  | .clusterSetup500, url, data, st =>
    if url = "/manage/cluster-setup" then
      (.failure (some 500) (some "Somethig is wrong"), st)
    else
      successPathSt url data st
  | .clusterSetupUnforcible, url, data, st =>
    if url = "/manage/cluster-setup" then
      (.success (some (.jsonFixture .libErrorUnforcibleLarge)), st)
    else
      successPathSt url data st
  | .clusterSetupException, url, data, st =>
    if url = "/manage/cluster-setup" then
      (.success (some (.jsonFixture .libException)), st)
    else
      successPathSt url data st
  | .clusterSetupForceFail, url, data, st =>
    if url = "/manage/cluster-setup" then
      match forceFlagsLength data with
      | .error _ => (.jsError, st)
      | .ok n => (.success (some (.jsonFixture (.libError (decide (n < 1))))), st)
    else
      successPathSt url data st
  | .clusterSetupForceFailForcible, url, data, st =>
    if url = "/manage/cluster-setup" then
      (.success (some (.jsonFixture (.libError true))), st)
    else
      successPathSt url data st
  | .clusterSetupForce, url, data, st =>
    if url = "/manage/cluster-setup" then
      match forceFlagsLength data with
      | .error _ => (.jsError, st)
      | .ok n =>
        if n < 1 then (.success (some (.jsonFixture (.libError true))), st)
        else successPathSt url data st
    else
      successPathSt url data st
  | .rememberFail, url, data, st =>
    if url = "/manage/remember-cluster" then
      (.failure (some 500) (some "Server error"), st)
    else
      successPathSt url data st

/-! ### Helper lemmas -/

theorem successPath_ne_jsError (url : String) (d : JsData) :
    testClusterSetup.successPath url d ≠ Outcome.jsError := by
  unfold testClusterSetup.successPath
  repeat' split
  all_goals simp

theorem override_flag_set (b w : Bool) (u : String) :
    ajaxWrapperOverride ⟨some b, w⟩ u = (none, ⟨some b, w⟩) := by
  unfold ajaxWrapperOverride
  split <;> rfl

theorem wrapperTrace_flag_set (b w : Bool) (us : List String) :
    wrapperTrace ⟨some b, w⟩ us = us.map fun _ => none := by
  induction us with
  | nil => rfl
  | cons u us ih => simp [wrapperTrace, override_flag_set, ih]

theorem successPathSt_eq (url : String) (d : JsData) (st : DevState) :
    successPathSt url d st = (testClusterSetup.successPath url d, st) := by
  by_cases h1 : url = "/manage/check_auth_against_nodes" <;>
    by_cases h2 : url = "/manage/send-known-hosts-to-node" <;>
      by_cases h3 : url = "/manage/cluster-setup" <;>
        by_cases h4 : url = "/manage/remember-cluster" <;>
          simp [successPathSt, testClusterSetup.successPath, h1, h2, h3, h4]

/-! ### Claim theorems -/

/-- C1, counterexample: on the cluster-setup URL with a payload whose
`force_flags` is the non-empty `["--force"]`, `clusterSetupForceFail` answers
with the `libError false` fixture while `clusterSetupForceFailForcible`
answers the same request with the distinct `libError true` fixture, so the
two are not identical there, contrary to the claim. -/
theorem c1_counterexample :
    testClusterSetup.clusterSetupForceFail "/manage/cluster-setup"
        ⟨some (.encObj (some ["--force"]))⟩
      = .success (some (.jsonFixture (.libError false)))
    ∧ testClusterSetup.clusterSetupForceFailForcible "/manage/cluster-setup"
        ⟨some (.encObj (some ["--force"]))⟩
      = .success (some (.jsonFixture (.libError true)))
    ∧ Outcome.success (some (.jsonFixture (.libError false)))
      ≠ Outcome.success (some (.jsonFixture (.libError true))) :=
  ⟨rfl, rfl, by decide⟩

/-- C1, amended: `clusterSetupForceFail` answers the cluster-setup URL with
`libError(force_flags.length < 1)`: an EMPTY `force_flags` yields the
`libError true` fixture, identical to what `clusterSetupForceFailForcible`
produces for the same request, and a non-empty `force_flags` yields
`libError false`. -/
theorem c1_theorem : ∀ (fl : List String) (d : JsData),
    testClusterSetup.clusterSetupForceFail "/manage/cluster-setup"
        ⟨some (.encObj (some fl))⟩
      = .success (some (.jsonFixture (.libError (decide (fl.length < 1)))))
    ∧ testClusterSetup.clusterSetupForceFail "/manage/cluster-setup"
        ⟨some (.encObj (some []))⟩
      = testClusterSetup.clusterSetupForceFailForcible "/manage/cluster-setup" d :=
  fun fl d => ⟨rfl, rfl⟩

/-- C2, counterexample: `successPath` has no case for the overview URL
`"/clusters_overview"`, the fifth endpoint of the contract, so it invokes
neither callback there and returns undefined. -/
theorem c2_counterexample :
    testClusterSetup.successPath "/clusters_overview" ⟨none⟩ = .noResponse :=
  rfl

/-- C2, amended: for every payload, `successPath` resolves each of the four
dialog endpoints by invoking the success callback; on the fifth contract URL,
the overview fetch, it invokes neither callback and returns undefined (that
endpoint is served by the separate one-shot ajax override instead). -/
theorem c2_theorem : ∀ d : JsData,
    testClusterSetup.successPath "/manage/check_auth_against_nodes" d
      = .success (some (.jsonNodeMap
          [("dave8", "Online"), ("kryten8", "Online"), ("holly8", "Online")]))
    ∧ testClusterSetup.successPath "/manage/send-known-hosts-to-node" d
      = .success (some (.str "success"))
    ∧ testClusterSetup.successPath "/manage/cluster-setup" d
      = .success (some (.jsonFixture .success))
    ∧ testClusterSetup.successPath "/manage/remember-cluster" d
      = .success none
    ∧ testClusterSetup.successPath "/clusters_overview" d
      = .noResponse :=
  fun d => ⟨rfl, rfl, rfl, rfl, rfl⟩

/-- C5: `clusterSetupForce` on the cluster-setup URL answers a payload with
empty `force_flags` by the success callback carrying the forcible
`libError true` fixture, and answers a payload with `force_flags`
`["--force"]` by falling through to `successPath`, whose success callback
carries the baseline success fixture. -/
theorem c5_theorem :
    testClusterSetup.clusterSetupForce "/manage/cluster-setup"
        ⟨some (.encObj (some []))⟩
      = .success (some (.jsonFixture (.libError true)))
    ∧ testClusterSetup.clusterSetupForce "/manage/cluster-setup"
        ⟨some (.encObj (some ["--force"]))⟩
      = testClusterSetup.successPath "/manage/cluster-setup"
          ⟨some (.encObj (some ["--force"]))⟩
    ∧ testClusterSetup.clusterSetupForce "/manage/cluster-setup"
        ⟨some (.encObj (some ["--force"]))⟩
      = .success (some (.jsonFixture .success)) :=
  ⟨rfl, rfl, rfl⟩

/-- C8: `checkAuthFails` invokes the failure callback with no status code and
no message on the auth-check URL, and on every other URL it invokes neither
callback and returns undefined. -/
theorem c8_theorem :
    (∀ d : JsData,
      testClusterSetup.checkAuthFails "/manage/check_auth_against_nodes" d
        = .failure none none)
    ∧ (∀ (url : String) (d : JsData), url ≠ "/manage/check_auth_against_nodes" →
      testClusterSetup.checkAuthFails url d = .noResponse) :=
  ⟨fun d => rfl, fun url d h => by
    unfold testClusterSetup.checkAuthFails
    rw [if_neg h]⟩

/-- C8, witness: the theorem applied at the auth-check URL and at the
overview URL with an empty payload. -/
theorem c8_witness :
    testClusterSetup.checkAuthFails "/manage/check_auth_against_nodes" ⟨none⟩
      = .failure none none
    ∧ testClusterSetup.checkAuthFails "/clusters_overview" ⟨none⟩ = .noResponse :=
  ⟨c8_theorem.1 ⟨none⟩, c8_theorem.2 "/clusters_overview" ⟨none⟩ (by decide)⟩

theorem runSt_eq (sc : Scenario) (url : String) (d : JsData) (st : DevState) :
    runSt sc url d st = (run sc url d, st) := by
  cases sc <;>
    simp only [runSt, run, testClusterSetup.checkAuth500,
      testClusterSetup.checkAuthFails, testClusterSetup.checkAuthNodesNotAuth,
      testClusterSetup.sendKnownHosts403, testClusterSetup.sendKnownHostsFail,
      testClusterSetup.sendKnownHostsUnsupported,
      testClusterSetup.sendKnownHostsUnknownFail,
      testClusterSetup.clusterSetup403, testClusterSetup.clusterSetup500,
      testClusterSetup.clusterSetupUnforcible,
      testClusterSetup.clusterSetupException,
      testClusterSetup.clusterSetupForceFail,
      testClusterSetup.clusterSetupForceFailForcible,
      testClusterSetup.clusterSetupForce, testClusterSetup.rememberFail] <;>
    (repeat' split) <;>
    simp_all [successPathSt_eq]

/-- C6: the overview override answers the first call for
`"/clusters_overview"` with the `mock.clusters_overview` fixture while setting
the one-shot flag; once the flag is set, every later call (for that URL or any
other) yields undefined and leaves the state unchanged, so a whole trace of
subsequent calls is all-undefined; and the prefill routine performs its
dialog-priming actions exactly on its first invocation, every later invocation
observing `wasRun` true and acting as a no-op. -/
theorem c6_theorem :
    (∀ w : Bool, ajaxWrapperOverride ⟨none, w⟩ "/clusters_overview"
      = (some .clustersOverview, ⟨some true, w⟩))
    ∧ (∀ (b w : Bool) (us : List String),
      wrapperTrace ⟨some b, w⟩ us = us.map fun _ => none)
    ∧ (∀ f : Option Bool, prefill ⟨f, false⟩ = (prefillActions, ⟨f, true⟩))
    ∧ (∀ st : DevState, ((prefill st).2).wasRun = true
      ∧ prefill (prefill st).2 = ([], (prefill st).2)) := by
  refine ⟨fun w => rfl, fun b w us => wrapperTrace_flag_set b w us,
    fun f => rfl, fun st => ?_⟩
  rcases st with ⟨f, w⟩
  cases w <;> simp [prefill]

/-- C9: the two force-flag responders are total exactly under the payload
precondition: when `setup_data` is valid JSON decoding to an object with a
`force_flags` array they never throw (on any URL), and when `setup_data` is
absent, not valid JSON, or lacks a `force_flags` field, the invocation on the
cluster-setup URL throws an exception instead of calling either callback. -/
theorem c9_theorem : ∀ d : JsData,
    (goodSetup d = true → ∀ url : String,
      testClusterSetup.clusterSetupForceFail url d ≠ Outcome.jsError
      ∧ testClusterSetup.clusterSetupForce url d ≠ Outcome.jsError)
    ∧ (goodSetup d = false →
      testClusterSetup.clusterSetupForceFail "/manage/cluster-setup" d
        = .jsError
      ∧ testClusterSetup.clusterSetupForce "/manage/cluster-setup" d
        = .jsError) := by
  rintro ⟨sd⟩
  constructor
  · intro hg url
    rcases sd with _ | s
    · simp [goodSetup] at hg
    · rcases s with ff | raw
      · rcases ff with _ | l
        · simp [goodSetup] at hg
        · constructor
          · unfold testClusterSetup.clusterSetupForceFail
            split
            · simp [forceFlagsLength]
            · exact successPath_ne_jsError url _
          · unfold testClusterSetup.clusterSetupForce
            split
            · simp only [forceFlagsLength]
              split
              · simp
              · exact successPath_ne_jsError url _
            · exact successPath_ne_jsError url _
      · simp [goodSetup] at hg
  · intro hg
    rcases sd with _ | s
    · exact ⟨rfl, rfl⟩
    · rcases s with ff | raw
      · rcases ff with _ | l
        · exact ⟨rfl, rfl⟩
        · simp [goodSetup] at hg
      · exact ⟨rfl, rfl⟩

/-- C9, witness: the theorem applied to a payload with a decodable
`force_flags` array (no throw on an arbitrary URL) and to a payload without
`setup_data` (throw on the cluster-setup URL). -/
theorem c9_witness :
    testClusterSetup.clusterSetupForceFail "/unmatched"
        ⟨some (.encObj (some []))⟩ ≠ Outcome.jsError
    ∧ testClusterSetup.clusterSetupForce "/manage/cluster-setup" ⟨none⟩
      = .jsError :=
  ⟨((c9_theorem ⟨some (.encObj (some []))⟩).1 rfl "/unmatched").1,
    ((c9_theorem ⟨none⟩).2 rfl).2⟩

/-- C10: every scenario responder is deterministic and stateless: its outcome
is a pure function of the URL and the payload, independent of the mutable
`DevState`, and it leaves that state unchanged. -/
theorem c10_theorem : ∀ (sc : Scenario) (url : String) (d : JsData)
    (s t : DevState),
    (runSt sc url d s).1 = (runSt sc url d t).1 ∧ (runSt sc url d s).2 = s :=
  fun sc url d s t => by rw [runSt_eq, runSt_eq]; exact ⟨rfl, rfl⟩

/-- The two responders whose body evaluates
`JSON.parse(data.setup_data).force_flags.length` and can therefore throw. -/
def throwsOn : Scenario → Bool
  | .clusterSetupForceFail | .clusterSetupForce => true
  | _ => false

theorem throwsOn_iff (sc : Scenario) :
    throwsOn sc = true ↔
      (sc = Scenario.clusterSetupForceFail ∨ sc = Scenario.clusterSetupForce) := by
  cases sc <;> decide

/-- C3, counterexample: `clusterSetupForceFail` invoked on the cluster-setup
URL with a payload lacking `setup_data` throws an exception, so it neither
calls a callback nor returns undefined, contrary to the claim quantifying over
every payload. -/
theorem c3_counterexample :
    run Scenario.clusterSetupForceFail "/manage/cluster-setup" ⟨none⟩
      = Outcome.jsError :=
  rfl

/-- C3, amended: for every scenario function, URL and payload, the invocation
calls exactly one of the two callbacks or invokes neither and returns
undefined (one `Outcome`, so never both and never twice), EXCEPT that
`clusterSetupForceFail` and `clusterSetupForce` on the cluster-setup URL throw
an exception, calling neither callback, precisely when the payload
`setup_data` is not valid JSON decoding to an object with a `force_flags`
array; the iff characterizes the exceptional invocations exactly. -/
theorem c3_theorem : ∀ (sc : Scenario) (url : String) (d : JsData),
    run sc url d = Outcome.jsError ↔
      ((sc = Scenario.clusterSetupForceFail ∨ sc = Scenario.clusterSetupForce)
        ∧ url = "/manage/cluster-setup" ∧ goodSetup d = false) := by
  intro sc url d
  rw [← throwsOn_iff]
  cases sc
  case clusterSetupForceFail =>
    simp only [run, testClusterSetup.clusterSetupForceFail, throwsOn]
    by_cases hu : url = "/manage/cluster-setup"
    · rw [if_pos hu]
      rcases d with ⟨_ | ((_ | l) | r)⟩ <;>
        simp [forceFlagsLength, goodSetup, hu]
    · rw [if_neg hu]
      simp [successPath_ne_jsError url d, hu]
  case clusterSetupForce =>
    simp only [run, testClusterSetup.clusterSetupForce, throwsOn]
    by_cases hu : url = "/manage/cluster-setup"
    · rw [if_pos hu]
      rcases d with ⟨_ | ((_ | l) | r)⟩
      · simp [forceFlagsLength, goodSetup, hu]
      · simp [forceFlagsLength, goodSetup, hu]
      · simp only [forceFlagsLength, goodSetup]
        split
        · simp [hu]
        · simp [successPath_ne_jsError, hu]
      · simp [forceFlagsLength, goodSetup, hu]
    · rw [if_neg hu]
      simp [successPath_ne_jsError url d, hu]
  all_goals
    simp only [run, throwsOn, testClusterSetup.successPath,
      testClusterSetup.checkAuth500, testClusterSetup.checkAuthFails,
      testClusterSetup.checkAuthNodesNotAuth,
      testClusterSetup.sendKnownHosts403, testClusterSetup.sendKnownHostsFail,
      testClusterSetup.sendKnownHostsUnsupported,
      testClusterSetup.sendKnownHostsUnknownFail,
      testClusterSetup.clusterSetup403, testClusterSetup.clusterSetup500,
      testClusterSetup.clusterSetupUnforcible,
      testClusterSetup.clusterSetupException,
      testClusterSetup.clusterSetupForceFailForcible,
      testClusterSetup.rememberFail]
  all_goals (repeat' split)
  all_goals simp_all [successPath_ne_jsError]

/-- C4: for every composed scenario with a default delegation branch and every
URL other than the one matched by its own case label, the scenario produces
exactly the outcome `successPath` produces on the same URL and payload, and
the invocation does not throw. -/
theorem c4_theorem : ∀ (sc : Scenario) (url : String) (d : JsData),
    delegating sc = true → url ≠ caseURL sc →
    run sc url d = testClusterSetup.successPath url d
      ∧ run sc url d ≠ Outcome.jsError := by
  intro sc url d hdel hurl
  cases sc
  case successPath => exact absurd hdel (by decide)
  case checkAuth500 => exact absurd hdel (by decide)
  case checkAuthFails => exact absurd hdel (by decide)
  case checkAuthNodesNotAuth => exact absurd hdel (by decide)
  all_goals
    simp only [caseURL] at hurl
  all_goals
    simp only [run, testClusterSetup.sendKnownHosts403,
      testClusterSetup.sendKnownHostsFail,
      testClusterSetup.sendKnownHostsUnsupported,
      testClusterSetup.sendKnownHostsUnknownFail,
      testClusterSetup.clusterSetup403, testClusterSetup.clusterSetup500,
      testClusterSetup.clusterSetupUnforcible,
      testClusterSetup.clusterSetupException,
      testClusterSetup.clusterSetupForceFail,
      testClusterSetup.clusterSetupForceFailForcible,
      testClusterSetup.clusterSetupForce, testClusterSetup.rememberFail]
  all_goals rw [if_neg hurl]
  all_goals exact ⟨rfl, successPath_ne_jsError url d⟩

/-- C4, witness: the theorem applied to `sendKnownHosts403` on the overview
URL, which its own case does not match. -/
theorem c4_witness :
    run Scenario.sendKnownHosts403 "/clusters_overview" ⟨none⟩
      = testClusterSetup.successPath "/clusters_overview" ⟨none⟩
    ∧ run Scenario.sendKnownHosts403 "/clusters_overview" ⟨none⟩
      ≠ Outcome.jsError :=
  c4_theorem Scenario.sendKnownHosts403 "/clusters_overview" ⟨none⟩
    (by decide) (by decide)

/-- C7: whenever any scenario answers the trust-distribution endpoint via the
success callback, the body is a plain string equal to one of `"success"`,
`"error"`, `"not_supported"` or `"unknown"`. -/
theorem c7_theorem : ∀ (sc : Scenario) (d : JsData) (b : Option Body),
    run sc "/manage/send-known-hosts-to-node" d = Outcome.success b →
    ∃ s, b = some (Body.str s)
      ∧ (s = "success" ∨ s = "error" ∨ s = "not_supported" ∨ s = "unknown") := by
  intro sc d b h
  cases sc <;>
    first
    | exact Outcome.noConfusion h
    | (injection h with h2
       subst h2
       first
       | exact ⟨"success", rfl, Or.inl rfl⟩
       | exact ⟨"error", rfl, Or.inr (Or.inl rfl)⟩
       | exact ⟨"not_supported", rfl, Or.inr (Or.inr (Or.inl rfl))⟩
       | exact ⟨"unknown", rfl, Or.inr (Or.inr (Or.inr rfl))⟩)

/-- C7, witness: the theorem applied to `successPath` with an empty payload,
whose trust-distribution answer is the string body `"success"`. -/
theorem c7_witness :
    ∃ s, (some (Body.str "success") : Option Body) = some (Body.str s)
      ∧ (s = "success" ∨ s = "error" ∨ s = "not_supported" ∨ s = "unknown") :=
  c7_theorem Scenario.successPath ⟨none⟩ (some (Body.str "success")) rfl
